import Mathlib

/-!
Verification of `bed_lookup/_bed_lookup.pyx` (python_bed_lookup).

The source defines a `BedFile` class answering "which gene covers position
p on chromosome c" over a BED annotation file, backed either by an
in-memory per-chromosome vector of records (small files, `_init_dict` /
`_lookup_dict`) or by a sqlite database (large files, `_init_sqlite` /
`_lookup_sqlite`).

Shallow-embedding conventions:
* an input line is modelled after `line.rstrip().split('\t')`: a `Line`
  is the list of its tab-separated fields;
* the Python `dict` of insertion-ordered per-chromosome vectors is an
  association list `GenomeIndex`;
* Python exceptions become `Except PyErr`; `sys.stderr` diagnostics are
  collected as `Diag` values in the result;
* Python `int(s)` on a string is modelled by `pyInt` (optional sign
  followed by decimal digits).
-/

/-- Python errors raised by the modelled code paths. -/
inductive PyErr
  | valueError
  | typeError
  deriving DecidableEq, Repr

/-- One BED record: the `StartEnd` C struct of the source
(`long start, end; string name`). -/
structure StartEnd where
  start : Int
  «end» : Int
  name : String
  deriving DecidableEq, Repr

/-- A line of the annotation file, modelled after
`line.rstrip().split('\t')`: the list of its tab-separated fields. -/
abbrev Line := List String

/-- The per-chromosome dictionary `self._dict`: chromosome name mapped to
the insertion-ordered vector of its records. -/
abbrev GenomeIndex := List (String × List StartEnd)

/-- Diagnostics written to `sys.stderr` by the lookup paths. -/
inductive Diag
  | chromNotFound (chrom : String)
  | posNotFound (chrom : String) (location : String)
  deriving DecidableEq, Repr

/-- Numeric value of a decimal digit character. -/
def digitVal (c : Char) : Option Nat :=
  if c.isDigit then some (c.toNat - 48) else none

/-- Accumulating decimal parse of a list of digit characters. -/
def digitsToNat : List Char → Nat → Option Nat
  | [], acc => some acc
  | c :: cs, acc =>
    match digitVal c with
    | some d => digitsToNat cs (acc * 10 + d)
    | none => none

/-- Python `int(s)` on a string: an optional sign followed by one or more
decimal digits; anything else raises `ValueError`, modelled as `none`. -/
def pyInt (s : String) : Option Int :=
  match s.toList with
  | [] => none
  | '-' :: rest =>
    if rest.isEmpty then none else (digitsToNat rest 0).map (fun n => -(n : Int))
  | '+' :: rest =>
    if rest.isEmpty then none else (digitsToNat rest 0).map (fun n => (n : Int))
  | l => (digitsToNat l 0).map (fun n => (n : Int))

/-- The `location` argument of `BedFile.lookup`: the public interface
takes an integer or a string. -/
inductive PyLoc
  | int (n : Int)
  | str (s : String)
  deriving DecidableEq, Repr

/-- The conversion `loc = int(location)` (source line 73): the identity on
integers, `pyInt` on strings; `none` models the raised `ValueError`. -/
def pyLocToInt : PyLoc → Option Int
  | PyLoc.int n => some n
  | PyLoc.str s => pyInt s

/-- The access `self._dict[chromosome]`: the first binding of the
chromosome; `none` models the `KeyError`. -/
def assocFind : GenomeIndex → String → Option (List StartEnd)
  | [], _ => none
  | (c, rs) :: rest, chrom => if c = chrom then some rs else assocFind rest chrom

/-- Appending a record to its chromosome's vector, creating the vector
first when the chromosome is new (`_init_dict`, source lines 147-150). -/
def assocPush : GenomeIndex → String → StartEnd → GenomeIndex
  | [], chrom, r => [(chrom, [r])]
  | (c, rs) :: rest, chrom, r =>
    if c = chrom then (c, rs ++ [r]) :: rest else (c, rs) :: assocPush rest chrom r

/-- The dict-backend containment test (source lines 75-78):
`start < loc < end`, strict on both bounds. -/
def dictMatch (r : StartEnd) (loc : Int) : Bool :=
  decide (r.start < loc) && decide (loc < r.«end»)

/-- The sqlite-backend containment test, taken from the SQL text built in
`_lookup_sqlite` (source lines 44-48): `location BETWEEN start AND end`,
which in SQL is inclusive on both bounds. -/
def sqliteMatch (r : StartEnd) (loc : Int) : Bool :=
  decide (r.start ≤ loc) && decide (loc ≤ r.«end»)

/-- The fall-through branch of `_lookup_dict` (source lines 88-93): the
warning message is built by `+`-concatenating `location` into a string
literal, which yields the message for a string location but raises
`TypeError` for an integer location (`str + int` is undefined in Python). -/
def notFoundDiag (chrom : String) (location : PyLoc) :
    Except PyErr (String × List Diag) :=
  match location with
  | PyLoc.int _ => Except.error PyErr.typeError
  | PyLoc.str s => Except.ok ("", [Diag.posNotFound chrom s])

/-- `BedFile._lookup_dict` (source lines 68-93), returning the answer
together with the diagnostics written to stderr. `loc = int(location)`
runs first and propagates its `ValueError`; a missing chromosome key
(`KeyError`) is caught and reported; otherwise the chromosome's vector is
scanned in insertion order for the first record with `start < loc < end`,
a non-empty `answer` is returned, and an empty `answer` falls through to
the not-found branch. -/
def lookupDict (g : GenomeIndex) (chrom : String) (location : PyLoc) :
    Except PyErr (String × List Diag) :=
  match pyLocToInt location with
  | none => Except.error PyErr.valueError
  | some loc =>
    match assocFind g chrom with
    | none => Except.ok ("", [Diag.chromNotFound chrom])
    | some recs =>
      let answer := ((recs.find? fun r => dictMatch r loc).map StartEnd.name).getD ""
      if answer = "" then notFoundDiag chrom location
      else Except.ok (answer, [])

/-- `BedFile._lookup_sqlite` (source lines 42-66), modelled at the
interface of the external engine: the per-chromosome table holds that
chromosome's records (`none` models the missing-table
`OperationalError`, which the source catches and reports), and the
`SELECT` returns a row satisfying the `BETWEEN` predicate of the query
text. The engine's native row ordering is modelled as insertion order;
the theorems below rely only on the membership predicate. At this call
site `location` was already converted with `str(...)` by `lookup`, so it
is a string and the warning concatenation cannot raise. -/
def lookupSqlite (tables : GenomeIndex) (chrom : String) (loc : Int) :
    String × List Diag :=
  match assocFind tables chrom with
  | none => ("", [Diag.chromNotFound chrom])
  | some rows =>
    match (rows.find? fun r => sqliteMatch r loc).map StartEnd.name with
    | some answer => (answer, [])
    | none => ("", [Diag.posNotFound chrom (toString loc)])

/-- Processing of one line by `_init_dict` (source lines 136-150): a line
with fewer than four tab-separated fields is skipped, `int(f[1])` and
`int(f[2])` propagate `ValueError`, and otherwise the record is appended
to its chromosome's vector. -/
def processLine (g : GenomeIndex) (f : Line) : Except PyErr GenomeIndex :=
  if f.length < 4 then Except.ok g
  else
    match pyInt (f.getD 1 ""), pyInt (f.getD 2 "") with
    | some s, some e => Except.ok (assocPush g (f.getD 0 "") ⟨s, e, f.getD 3 ""⟩)
    | _, _ => Except.error PyErr.valueError

/-- The line loop of `_init_dict`. -/
def initDictAux (g : GenomeIndex) : List Line → Except PyErr GenomeIndex
  | [] => Except.ok g
  | f :: rest =>
    match processLine g f with
    | Except.ok g2 => initDictAux g2 rest
    | Except.error e => Except.error e

/-- `BedFile._init_dict` (source lines 132-150): builds `self._dict` from
the file's lines. -/
def initDict (lines : List Line) : Except PyErr GenomeIndex :=
  initDictAux [] lines

/-- The maximum number of lines handled with the dictionary backend
(source line 18). -/
def _max_len : Nat := 1000000

/-- The backend selected by `BedFile.__init__`. -/
inductive Backend
  | sq
  | dt (index : GenomeIndex)
  deriving DecidableEq, Repr

/-- `BedFile.__init__` (source lines 152-159): the sqlite backend when the
`wc -l` line count is strictly greater than `_max_len`, otherwise the
eagerly built in-memory dictionary. -/
def bedFileInit (lineCount : Nat) (lines : List Line) : Except PyErr Backend :=
  if lineCount > _max_len then Except.ok Backend.sq
  else (initDict lines).map Backend.dt

/-- The three-line file of spec section 8.7, lines pre-split on tabs. -/
def exampleLines : List Line :=
  [["chr1", "100", "200", "GENE_A"],
   ["chr1", "150", "250", "GENE_B"],
   ["chr2", "10", "20", "GENE_C"]]

/-- The index `_init_dict` builds from `exampleLines`. -/
def exampleIndex : GenomeIndex :=
  [("chr1", [⟨100, 200, "GENE_A"⟩, ⟨150, 250, "GENE_B"⟩]),
   ("chr2", [⟨10, 20, "GENE_C"⟩])]

/-- A skipped short line leaves the accumulated index untouched. -/
theorem processLine_skip (g : GenomeIndex) (f : Line) (h : f.length < 4) :
    processLine g f = Except.ok g := by
  simp [processLine, h]

/-- The only error `processLine` produces is the `ValueError` of `int`. -/
theorem processLine_error_eq (g : GenomeIndex) (f : Line) (e : PyErr)
    (h : processLine g f = Except.error e) : e = PyErr.valueError := by
  unfold processLine at h
  split at h
  · simp at h
  · split at h
    · simp at h
    · simp only [Except.error.injEq] at h
      exact h.symm

/-- A line of at least four fields with a non-integer start or end field
makes `processLine` raise `ValueError`. -/
theorem processLine_bad (g : GenomeIndex) (f : Line) (hlen : 4 ≤ f.length)
    (hbad : pyInt (f.getD 1 "") = none ∨ pyInt (f.getD 2 "") = none) :
    processLine g f = Except.error PyErr.valueError := by
  unfold processLine
  rw [if_neg (by omega)]
  rcases hbad with h | h
  · rw [h]
  · rw [h]
    cases pyInt (f.getD 1 "") <;> rfl

/-- Dropping a short line anywhere in the input does not change the loop's
result, from any accumulated index. -/
theorem initDictAux_skip (pre : List Line) (bad : Line) (suf : List Line)
    (h : bad.length < 4) :
    ∀ g, initDictAux g (pre ++ bad :: suf) = initDictAux g (pre ++ suf) := by
  induction pre with
  | nil =>
    intro g
    simp only [List.nil_append, initDictAux, processLine_skip g bad h]
  | cons f rest ih =>
    intro g
    simp only [List.cons_append, initDictAux]
    cases hp : processLine g f with
    | ok g2 => exact ih g2
    | error e => rfl

/-- A bad line anywhere in the input makes the loop fail with
`ValueError`, from any accumulated index. -/
theorem initDictAux_bad (f : Line) (hlen : 4 ≤ f.length)
    (hbad : pyInt (f.getD 1 "") = none ∨ pyInt (f.getD 2 "") = none)
    (lines : List Line) :
    f ∈ lines → ∀ g, initDictAux g lines = Except.error PyErr.valueError := by
  induction lines with
  | nil => intro h; cases h
  | cons hd tl ih =>
    intro hmem g
    rcases List.mem_cons.mp hmem with heq | hmem2
    · subst heq
      simp only [initDictAux, processLine_bad g f hlen hbad]
    · simp only [initDictAux]
      cases hp : processLine g hd with
      | ok g2 => exact ih hmem2 g2
      | error e =>
        have he : e = PyErr.valueError := processLine_error_eq g hd e hp
        rw [he]

/-- The match tests as propositions: strict containment. -/
theorem dictMatch_iff (r : StartEnd) (p : Int) :
    dictMatch r p = true ↔ r.start < p ∧ p < r.«end» := by
  simp [dictMatch]

/-- The match tests as propositions: inclusive containment. -/
theorem sqliteMatch_iff (r : StartEnd) (p : Int) :
    sqliteMatch r p = true ↔ r.start ≤ p ∧ p ≤ r.«end» := by
  simp [sqliteMatch]

/-- Claim C1: on the dict backend, when the chromosome is present, lookup
scans its records in insertion (file) order and returns the name of the
first record with `start < p < end` (strict on both bounds), with no
diagnostic. (The name is required non-empty; an empty name falls through
to the not-found branch, which is the subject of C9.) -/
theorem c1_first_match_wins (g : GenomeIndex) (chrom : String)
    (location : PyLoc) (p : Int) (recs : List StartEnd) (r : StartEnd)
    (hloc : pyLocToInt location = some p)
    (hchrom : assocFind g chrom = some recs)
    (hfind : recs.find? (fun x => dictMatch x p) = some r)
    (hname : r.name ≠ "") :
    lookupDict g chrom location = Except.ok (r.name, []) := by
  simp [lookupDict, hloc, hchrom, hfind, hname]

/-- Claim C1 witness: on the three-line file of spec section 8.7,
position 160 on chr1 lies in both GENE_A and GENE_B, and the lookup
returns GENE_A, the first record in file order. -/
theorem c1_witness :
    initDict exampleLines = Except.ok exampleIndex ∧
      lookupDict exampleIndex "chr1" (PyLoc.int 160) =
        Except.ok ("GENE_A", []) :=
  ⟨rfl,
   c1_first_match_wins exampleIndex "chr1" (PyLoc.int 160) 160
     [⟨100, 200, "GENE_A"⟩, ⟨150, 250, "GENE_B"⟩] ⟨100, 200, "GENE_A"⟩
     rfl rfl (by decide) (by decide)⟩

/-- Claim C2, evaluated at the failing input: a boundary position never
satisfies the strict containment test, and with the location passed as a
string the lookup does return the empty string; but at the spec's own
example `lookup("chr1", 100)` with the integer `100`, the not-found
branch raises `TypeError` instead of returning `""`. -/
theorem c2_boundary_eval :
    dictMatch ⟨100, 200, "GENE_A"⟩ 100 = false ∧
      dictMatch ⟨150, 250, "GENE_B"⟩ 100 = false ∧
      lookupDict exampleIndex "chr1" (PyLoc.str "100") =
        Except.ok ("", [Diag.posNotFound "chr1" "100"]) ∧
      lookupDict exampleIndex "chr1" (PyLoc.int 100) =
        Except.error PyErr.typeError :=
  ⟨rfl, rfl, rfl, rfl⟩

/-- Claim C3 counterexample: at a line count of exactly 1,000,000,
`__init__` builds the in-memory dictionary, not the sqlite backend the
claim requires. -/
theorem c3_counterexample :
    bedFileInit 1000000 exampleLines = Except.ok (Backend.dt exampleIndex) ∧
      bedFileInit 1000000 exampleLines ≠ Except.ok Backend.sq := by
  refine ⟨rfl, fun h => ?_⟩
  have h2 : Except.ok (ε := PyErr) (Backend.dt exampleIndex) =
      Except.ok Backend.sq := Eq.trans rfl h
  simp at h2

/-- Claim C3 amended: `__init__` compares the line count to the threshold
with a strict greater-than: strictly above 1,000,000 lines it takes the
sqlite path without building the dictionary, while at or below the
threshold — including exactly 1,000,000 — it eagerly builds the full
in-memory index. -/
theorem c3_amended_threshold (n : Nat) (lines : List Line) :
    (n ≤ _max_len → bedFileInit n lines = (initDict lines).map Backend.dt) ∧
      (_max_len < n → bedFileInit n lines = Except.ok Backend.sq) := by
  constructor
  · intro h
    unfold bedFileInit
    rw [if_neg (Nat.not_lt.mpr h)]
  · intro h
    unfold bedFileInit
    rw [if_pos h]

/-- Claim C3 amended witness: at exactly the threshold the dictionary is
built; one line above it the sqlite path is taken. -/
theorem c3_witness :
    bedFileInit 1000000 [] = (initDict []).map Backend.dt ∧
      bedFileInit 1000001 [] = Except.ok Backend.sq :=
  ⟨(c3_amended_threshold 1000000 []).1 (by decide),
   (c3_amended_threshold 1000001 []).2 (by decide)⟩

/-- Claim C4 counterexample: the sqlite query text uses `BETWEEN`, which
is inclusive, so at `p = start = 100` the sqlite backend returns the
record's name while the dict backend reports not-found: the two backends
disagree at the boundary. -/
theorem c4_counterexample :
    lookupSqlite [("chr1", [⟨100, 200, "GENE_A"⟩])] "chr1" 100 =
        ("GENE_A", []) ∧
      lookupDict [("chr1", [⟨100, 200, "GENE_A"⟩])] "chr1" (PyLoc.str "100") =
        Except.ok ("", [Diag.posNotFound "chr1" "100"]) :=
  ⟨rfl, rfl⟩

/-- Claim C4 amended: every dict-backend match is also a sqlite-backend
match, so the backends agree on strictly interior positions; but the
sqlite predicate is inclusive, so on a record with `start ≤ end` a
boundary position `p = start` or `p = end` never matches in the dict
backend and always matches in the sqlite backend — the backends disagree
exactly at the bounds. -/
theorem c4_amended_bounds (r : StartEnd) (p : Int) :
    (dictMatch r p = true → sqliteMatch r p = true) ∧
      (r.start ≤ r.«end» → (p = r.start ∨ p = r.«end») →
        dictMatch r p = false ∧ sqliteMatch r p = true) := by
  constructor
  · intro h
    rw [sqliteMatch_iff]
    have h2 := (dictMatch_iff r p).mp h
    omega
  · intro hle hb
    have hd : ¬ dictMatch r p = true := by
      rw [dictMatch_iff]
      rcases hb with h | h <;> omega
    have hs : sqliteMatch r p = true := by
      rw [sqliteMatch_iff]
      rcases hb with h | h <;> omega
    exact ⟨Bool.eq_false_iff.mpr hd, hs⟩

/-- Claim C4 amended witness: at the left boundary of a record the dict
test rejects and the sqlite test accepts. -/
theorem c4_witness :
    dictMatch ⟨100, 200, "GENE_A"⟩ 100 = false ∧
      sqliteMatch ⟨100, 200, "GENE_A"⟩ 100 = true :=
  (c4_amended_bounds ⟨100, 200, "GENE_A"⟩ 100).2 (by decide) (Or.inl rfl)

/-- Claim C5, evaluated: the chromosome-absent case indeed never raises
and emits the chromosome-naming diagnostic, but the position-not-found
case raises `TypeError` for an integer location (the warning concatenates
the location object into a string), returning `""` with the diagnostic
only when the location is a string. -/
theorem c5_notfound_eval :
    lookupDict exampleIndex "chr3" (PyLoc.int 5) =
        Except.ok ("", [Diag.chromNotFound "chr3"]) ∧
      lookupDict exampleIndex "chr2" (PyLoc.int 25) =
        Except.error PyErr.typeError ∧
      lookupDict exampleIndex "chr2" (PyLoc.str "25") =
        Except.ok ("", [Diag.posNotFound "chr2" "25"]) :=
  ⟨rfl, rfl, rfl⟩

/-- Claim C6: a line with fewer than four tab-separated fields is skipped
silently — building with it gives exactly the same result as building
without it: no index entry, no failure, and no diagnostic (`_init_dict`
emits none at all). -/
theorem c6_short_line_skipped (pre suf : List Line) (bad : Line)
    (h : bad.length < 4) :
    initDict (pre ++ bad :: suf) = initDict (pre ++ suf) :=
  initDictAux_skip pre bad suf h []

/-- Claim C6 witness: a two-field line prepended to the section 8.7 file
changes nothing. -/
theorem c6_witness :
    initDict ([] ++ ["chr1", "100"] :: exampleLines) =
      initDict ([] ++ exampleLines) :=
  c6_short_line_skipped [] exampleLines ["chr1", "100"] (by decide)

/-- Claim C7: a line of at least four fields whose start or end field is
not a valid integer makes the whole build fail — the `ValueError` from
`int(...)` propagates uncaught out of `_init_dict`. -/
theorem c7_parse_error_fatal (lines : List Line) (f : Line)
    (hmem : f ∈ lines) (hlen : 4 ≤ f.length)
    (hbad : pyInt (f.getD 1 "") = none ∨ pyInt (f.getD 2 "") = none) :
    initDict lines = Except.error PyErr.valueError :=
  initDictAux_bad f hlen hbad lines hmem []

/-- Claim C7 witness: a single line with a non-numeric start field makes
the build fail. -/
theorem c7_witness :
    initDict [["chr1", "abc", "200", "G"]] = Except.error PyErr.valueError :=
  c7_parse_error_fatal [["chr1", "abc", "200", "G"]]
    ["chr1", "abc", "200", "G"] (List.mem_singleton.mpr rfl) (by decide)
    (Or.inl rfl)

/-- Claim C8: building twice from the same lines and querying the same
(chromosome, location) pair gives identical results — `_init_dict` is a
pure function of the file contents. -/
theorem c8_build_deterministic (lines : List Line) (g1 g2 : GenomeIndex)
    (h1 : initDict lines = Except.ok g1) (h2 : initDict lines = Except.ok g2)
    (chrom : String) (location : PyLoc) :
    lookupDict g1 chrom location = lookupDict g2 chrom location := by
  rw [h1] at h2
  injection h2 with h3
  rw [h3]

/-- Claim C8 witness: two builds of the section 8.7 file answer the
chr1/160 query identically. -/
theorem c8_witness :
    lookupDict exampleIndex "chr1" (PyLoc.int 160) =
      lookupDict exampleIndex "chr1" (PyLoc.int 160) :=
  c8_build_deterministic exampleLines exampleIndex exampleIndex rfl rfl
    "chr1" (PyLoc.int 160)

/-- Claim C9 counterexample: with a single record whose name is the empty
string, a strictly interior integer position makes the lookup raise
`TypeError` (via the not-found warning path) rather than return the empty
string with a position diagnostic as the claim states. -/
theorem c9_counterexample :
    lookupDict [("chr1", [⟨100, 200, ""⟩])] "chr1" (PyLoc.int 150) =
        Except.error PyErr.typeError ∧
      lookupDict [("chr1", [⟨100, 200, ""⟩])] "chr1" (PyLoc.int 150) ≠
        Except.ok ("", [Diag.posNotFound "chr1" "150"]) := by
  refine ⟨rfl, fun h => ?_⟩
  have h2 : Except.error (α := String × List Diag) PyErr.typeError =
      Except.ok ("", [Diag.posNotFound "chr1" "150"]) := Eq.trans rfl h
  simp at h2

/-- Claim C9 amended: when the first matching record's name is the empty
string, the lookup behaves exactly as if no record had matched — its
result equals that of a lookup on the same chromosome holding no records
at all (for a string location, `""` plus the position diagnostic; for an
integer location, the same `TypeError` a genuine not-found raises). -/
theorem c9_amended_empty_name (g : GenomeIndex) (chrom : String)
    (location : PyLoc) (p : Int) (recs : List StartEnd) (r : StartEnd)
    (hloc : pyLocToInt location = some p)
    (hchrom : assocFind g chrom = some recs)
    (hfind : recs.find? (fun x => dictMatch x p) = some r)
    (hname : r.name = "") :
    lookupDict g chrom location = lookupDict [(chrom, [])] chrom location := by
  simp [lookupDict, hloc, hchrom, hfind, hname, assocFind]

/-- Claim C9 amended witness: an empty-named covering record gives the
same outcome as an empty chromosome. -/
theorem c9_witness :
    lookupDict [("chr1", [⟨100, 200, ""⟩])] "chr1" (PyLoc.str "150") =
      lookupDict [("chr1", [])] "chr1" (PyLoc.str "150") :=
  c9_amended_empty_name [("chr1", [⟨100, 200, ""⟩])] "chr1"
    (PyLoc.str "150") 150 [⟨100, 200, ""⟩] ⟨100, 200, ""⟩ rfl rfl rfl rfl

/-- Claim C10: a location that is neither an integer nor a string
parseable as an integer makes `_lookup_dict` raise `ValueError` from
`int(location)` before any chromosome or interval check: the result is
that error for every index, in particular when the chromosome is absent,
so the empty-string not-found result is never reached. -/
theorem c10_conversion_error_first (g : GenomeIndex) (chrom : String)
    (s : String) (h : pyInt s = none) :
    lookupDict g chrom (PyLoc.str s) = Except.error PyErr.valueError := by
  simp [lookupDict, pyLocToInt, h]

/-- Claim C10 witness: looking up "abc" on an empty index raises
`ValueError`, not the chromosome-absent result. -/
theorem c10_witness :
    lookupDict [] "chr1" (PyLoc.str "abc") = Except.error PyErr.valueError :=
  c10_conversion_error_first [] "chr1" "abc" rfl
